import Mathlib

set_option maxRecDepth 65536

/-!
Verification of the `wordcount` library (`src/lib.rs`, `src/main.rs`):
a frequency counter over text lines with three modes (`Char`, `Word`,
`Line`), plus a thin CLI wrapper that selects the mode from a string.

The embedding follows the Rust source:
* `CountOption` is the mode enumeration from `lib.rs`.
* `Freqs` models `HashMap<String, usize>` as an association list with
  unique keys; `incr` models `*freqs.entry(k).or_insert(0) += 1`.
* `wordsOf` models `Regex::new(r"\w+") ... find_iter`: the maximal runs
  of word characters of a line, in left-to-right order.
* `count` models `fn count`, folding each line's tokens into the map.
* `utf8Decode` / `splitLines` / `countBytes` model the byte level of
  `BufRead::lines()`: splitting on `0x0A`, stripping a trailing CR of a
  newline-terminated line, and UTF-8 decoding; a decode failure makes
  `line.unwrap()` panic, modelled as `none`.
* `parseOption` models the `match count_option.as_str()` in `main.rs`.
-/

/-- The mode enumeration `CountOption` from `lib.rs`. -/
inductive CountOption where
  /-- one Unicode scalar value -/
  | Char : CountOption
  /-- a word matching the regex `\w+` -/
  | Word : CountOption
  /-- one line, delimited by `\n` -/
  | Line : CountOption
deriving DecidableEq, Repr

/-- `impl Default for CountOption`: the default mode is `Word`. -/
def CountOption.default : CountOption := CountOption.Word

/-- The frequency map `HashMap<String, usize>`, modelled as an
association list with unique keys (insertion order retained). -/
abbrev Freqs : Type := List (String × Nat)

/-- Lookup of a key in the frequency map. -/
def lookupF : Freqs → String → Option Nat
  | [], _ => none
  | (k', v) :: rest, k => if k' = k then some v else lookupF rest k

/-- `*freqs.entry(k).or_insert(0) += 1`: increment the entry of `k`,
inserting it with count 1 when absent. -/
def incr : Freqs → String → Freqs
  | [], k => [(k, 1)]
  | (k', v) :: rest, k =>
      if k' = k then (k', v + 1) :: rest else (k', v) :: incr rest k

/-- The inclusive scalar-value ranges of the Unicode word-character
class that the regex crate's `\w` matches (the UTS#18 recommendation:
`Alphabetic` together with combining marks `M`, decimal digits `Nd`,
connector punctuation `Pc` such as the underscore, and the two join
controls U+200C and U+200D), in ascending order. -/
def wordRanges : List (Nat × Nat) := [
  (48, 57), (65, 90), (95, 95), (97, 122), (170, 170), (181, 181),
  (186, 186), (192, 214), (216, 246), (248, 705), (710, 721), (736, 740),
  (748, 748), (750, 750), (768, 884), (886, 887), (890, 893), (895, 895),
  (902, 902), (904, 906), (908, 908), (910, 929), (931, 1013), (1015, 1153),
  (1155, 1327), (1329, 1366), (1369, 1369), (1376, 1416), (1425, 1469), (1471, 1471),
  (1473, 1474), (1476, 1477), (1479, 1479), (1488, 1514), (1519, 1522), (1552, 1562),
  (1568, 1641), (1646, 1747), (1749, 1756), (1759, 1768), (1770, 1788), (1791, 1791),
  (1808, 1866), (1869, 1969), (1984, 2037), (2042, 2042), (2045, 2045), (2048, 2093),
  (2112, 2139), (2144, 2154), (2160, 2183), (2185, 2190), (2200, 2273), (2275, 2403),
  (2406, 2415), (2417, 2435), (2437, 2444), (2447, 2448), (2451, 2472), (2474, 2480),
  (2482, 2482), (2486, 2489), (2492, 2500), (2503, 2504), (2507, 2510), (2519, 2519),
  (2524, 2525), (2527, 2531), (2534, 2545), (2556, 2556), (2558, 2558), (2561, 2563),
  (2565, 2570), (2575, 2576), (2579, 2600), (2602, 2608), (2610, 2611), (2613, 2614),
  (2616, 2617), (2620, 2620), (2622, 2626), (2631, 2632), (2635, 2637), (2641, 2641),
  (2649, 2652), (2654, 2654), (2662, 2677), (2689, 2691), (2693, 2701), (2703, 2705),
  (2707, 2728), (2730, 2736), (2738, 2739), (2741, 2745), (2748, 2757), (2759, 2761),
  (2763, 2765), (2768, 2768), (2784, 2787), (2790, 2799), (2809, 2815), (2817, 2819),
  (2821, 2828), (2831, 2832), (2835, 2856), (2858, 2864), (2866, 2867), (2869, 2873),
  (2876, 2884), (2887, 2888), (2891, 2893), (2901, 2903), (2908, 2909), (2911, 2915),
  (2918, 2927), (2929, 2929), (2946, 2947), (2949, 2954), (2958, 2960), (2962, 2965),
  (2969, 2970), (2972, 2972), (2974, 2975), (2979, 2980), (2984, 2986), (2990, 3001),
  (3006, 3010), (3014, 3016), (3018, 3021), (3024, 3024), (3031, 3031), (3046, 3055),
  (3072, 3084), (3086, 3088), (3090, 3112), (3114, 3129), (3132, 3140), (3142, 3144),
  (3146, 3149), (3157, 3158), (3160, 3162), (3165, 3165), (3168, 3171), (3174, 3183),
  (3200, 3203), (3205, 3212), (3214, 3216), (3218, 3240), (3242, 3251), (3253, 3257),
  (3260, 3268), (3270, 3272), (3274, 3277), (3285, 3286), (3293, 3294), (3296, 3299),
  (3302, 3311), (3313, 3314), (3328, 3340), (3342, 3344), (3346, 3396), (3398, 3400),
  (3402, 3406), (3412, 3415), (3423, 3427), (3430, 3439), (3450, 3455), (3457, 3459),
  (3461, 3478), (3482, 3505), (3507, 3515), (3517, 3517), (3520, 3526), (3530, 3530),
  (3535, 3540), (3542, 3542), (3544, 3551), (3558, 3567), (3570, 3571), (3585, 3642),
  (3648, 3662), (3664, 3673), (3713, 3714), (3716, 3716), (3718, 3722), (3724, 3747),
  (3749, 3749), (3751, 3773), (3776, 3780), (3782, 3782), (3784, 3789), (3792, 3801),
  (3804, 3807), (3840, 3840), (3864, 3865), (3872, 3881), (3893, 3893), (3895, 3895),
  (3897, 3897), (3902, 3911), (3913, 3948), (3953, 3972), (3974, 3991), (3993, 4028),
  (4038, 4038), (4096, 4169), (4176, 4253), (4256, 4293), (4295, 4295), (4301, 4301),
  (4304, 4346), (4348, 4680), (4682, 4685), (4688, 4694), (4696, 4696), (4698, 4701),
  (4704, 4744), (4746, 4749), (4752, 4784), (4786, 4789), (4792, 4798), (4800, 4800),
  (4802, 4805), (4808, 4822), (4824, 4880), (4882, 4885), (4888, 4954), (4957, 4959),
  (4992, 5007), (5024, 5109), (5112, 5117), (5121, 5740), (5743, 5759), (5761, 5786),
  (5792, 5866), (5870, 5880), (5888, 5909), (5919, 5940), (5952, 5971), (5984, 5996),
  (5998, 6000), (6002, 6003), (6016, 6099), (6103, 6103), (6108, 6109), (6112, 6121),
  (6155, 6157), (6159, 6169), (6176, 6264), (6272, 6314), (6320, 6389), (6400, 6430),
  (6432, 6443), (6448, 6459), (6470, 6509), (6512, 6516), (6528, 6571), (6576, 6601),
  (6608, 6617), (6656, 6683), (6688, 6750), (6752, 6780), (6783, 6793), (6800, 6809),
  (6823, 6823), (6832, 6862), (6912, 6988), (6992, 7001), (7019, 7027), (7040, 7155),
  (7168, 7223), (7232, 7241), (7245, 7293), (7296, 7304), (7312, 7354), (7357, 7359),
  (7376, 7378), (7380, 7418), (7424, 7957), (7960, 7965), (7968, 8005), (8008, 8013),
  (8016, 8023), (8025, 8025), (8027, 8027), (8029, 8029), (8031, 8061), (8064, 8116),
  (8118, 8124), (8126, 8126), (8130, 8132), (8134, 8140), (8144, 8147), (8150, 8155),
  (8160, 8172), (8178, 8180), (8182, 8188), (8204, 8205), (8255, 8256), (8276, 8276),
  (8305, 8305), (8319, 8319), (8336, 8348), (8400, 8432), (8450, 8450), (8455, 8455),
  (8458, 8467), (8469, 8469), (8473, 8477), (8484, 8484), (8486, 8486), (8488, 8488),
  (8490, 8493), (8495, 8505), (8508, 8511), (8517, 8521), (8526, 8526), (8544, 8584),
  (9398, 9449), (11264, 11492), (11499, 11507), (11520, 11557), (11559, 11559), (11565, 11565),
  (11568, 11623), (11631, 11631), (11647, 11670), (11680, 11686), (11688, 11694), (11696, 11702),
  (11704, 11710), (11712, 11718), (11720, 11726), (11728, 11734), (11736, 11742), (11744, 11775),
  (11823, 11823), (12293, 12295), (12321, 12335), (12337, 12341), (12344, 12348), (12353, 12438),
  (12441, 12442), (12445, 12447), (12449, 12538), (12540, 12543), (12549, 12591), (12593, 12686),
  (12704, 12735), (12784, 12799), (13312, 19903), (19968, 42124), (42192, 42237), (42240, 42508),
  (42512, 42539), (42560, 42610), (42612, 42621), (42623, 42737), (42775, 42783), (42786, 42888),
  (42891, 42954), (42960, 42961), (42963, 42963), (42965, 42969), (42994, 43047), (43052, 43052),
  (43072, 43123), (43136, 43205), (43216, 43225), (43232, 43255), (43259, 43259), (43261, 43309),
  (43312, 43347), (43360, 43388), (43392, 43456), (43471, 43481), (43488, 43518), (43520, 43574),
  (43584, 43597), (43600, 43609), (43616, 43638), (43642, 43714), (43739, 43741), (43744, 43759),
  (43762, 43766), (43777, 43782), (43785, 43790), (43793, 43798), (43808, 43814), (43816, 43822),
  (43824, 43866), (43868, 43881), (43888, 44010), (44012, 44013), (44016, 44025), (44032, 55203),
  (55216, 55238), (55243, 55291), (63744, 64109), (64112, 64217), (64256, 64262), (64275, 64279),
  (64285, 64296), (64298, 64310), (64312, 64316), (64318, 64318), (64320, 64321), (64323, 64324),
  (64326, 64433), (64467, 64829), (64848, 64911), (64914, 64967), (65008, 65019), (65024, 65039),
  (65056, 65071), (65075, 65076), (65101, 65103), (65136, 65140), (65142, 65276), (65296, 65305),
  (65313, 65338), (65343, 65343), (65345, 65370), (65382, 65470), (65474, 65479), (65482, 65487),
  (65490, 65495), (65498, 65500), (65536, 65547), (65549, 65574), (65576, 65594), (65596, 65597),
  (65599, 65613), (65616, 65629), (65664, 65786), (65856, 65908), (66045, 66045), (66176, 66204),
  (66208, 66256), (66272, 66272), (66304, 66335), (66349, 66378), (66384, 66426), (66432, 66461),
  (66464, 66499), (66504, 66511), (66513, 66517), (66560, 66717), (66720, 66729), (66736, 66771),
  (66776, 66811), (66816, 66855), (66864, 66915), (66928, 66938), (66940, 66954), (66956, 66962),
  (66964, 66965), (66967, 66977), (66979, 66993), (66995, 67001), (67003, 67004), (67072, 67382),
  (67392, 67413), (67424, 67431), (67456, 67461), (67463, 67504), (67506, 67514), (67584, 67589),
  (67592, 67592), (67594, 67637), (67639, 67640), (67644, 67644), (67647, 67669), (67680, 67702),
  (67712, 67742), (67808, 67826), (67828, 67829), (67840, 67861), (67872, 67897), (67968, 68023),
  (68030, 68031), (68096, 68099), (68101, 68102), (68108, 68115), (68117, 68119), (68121, 68149),
  (68152, 68154), (68159, 68159), (68192, 68220), (68224, 68252), (68288, 68295), (68297, 68326),
  (68352, 68405), (68416, 68437), (68448, 68466), (68480, 68497), (68608, 68680), (68736, 68786),
  (68800, 68850), (68864, 68903), (68912, 68921), (69248, 69289), (69291, 69292), (69296, 69297),
  (69376, 69404), (69415, 69415), (69424, 69456), (69488, 69509), (69552, 69572), (69600, 69622),
  (69632, 69702), (69734, 69749), (69759, 69818), (69826, 69826), (69840, 69864), (69872, 69881),
  (69888, 69940), (69942, 69951), (69956, 69959), (69968, 70003), (70006, 70006), (70016, 70084),
  (70089, 70092), (70094, 70106), (70108, 70108), (70144, 70161), (70163, 70199), (70206, 70206),
  (70272, 70278), (70280, 70280), (70282, 70285), (70287, 70301), (70303, 70312), (70320, 70378),
  (70384, 70393), (70400, 70403), (70405, 70412), (70415, 70416), (70419, 70440), (70442, 70448),
  (70450, 70451), (70453, 70457), (70459, 70468), (70471, 70472), (70475, 70477), (70480, 70480),
  (70487, 70487), (70493, 70499), (70502, 70508), (70512, 70516), (70656, 70730), (70736, 70745),
  (70750, 70753), (70784, 70853), (70855, 70855), (70864, 70873), (71040, 71093), (71096, 71104),
  (71128, 71133), (71168, 71232), (71236, 71236), (71248, 71257), (71296, 71352), (71360, 71369),
  (71424, 71450), (71453, 71467), (71472, 71481), (71488, 71494), (71680, 71738), (71840, 71913),
  (71935, 71942), (71945, 71945), (71948, 71955), (71957, 71958), (71960, 71989), (71991, 71992),
  (71995, 72003), (72016, 72025), (72096, 72103), (72106, 72151), (72154, 72161), (72163, 72164),
  (72192, 72254), (72263, 72263), (72272, 72345), (72349, 72349), (72368, 72440), (72704, 72712),
  (72714, 72758), (72760, 72768), (72784, 72793), (72818, 72847), (72850, 72871), (72873, 72886),
  (72960, 72966), (72968, 72969), (72971, 73014), (73018, 73018), (73020, 73021), (73023, 73031),
  (73040, 73049), (73056, 73061), (73063, 73064), (73066, 73102), (73104, 73105), (73107, 73112),
  (73120, 73129), (73440, 73462), (73648, 73648), (73728, 74649), (74752, 74862), (74880, 75075),
  (77712, 77808), (77824, 78894), (82944, 83526), (92160, 92728), (92736, 92766), (92768, 92777),
  (92784, 92862), (92864, 92873), (92880, 92909), (92912, 92916), (92928, 92982), (92992, 92995),
  (93008, 93017), (93027, 93047), (93053, 93071), (93760, 93823), (93952, 94026), (94031, 94087),
  (94095, 94111), (94176, 94177), (94179, 94180), (94192, 94193), (94208, 100343), (100352, 101589),
  (101632, 101640), (110576, 110579), (110581, 110587), (110589, 110590), (110592, 110882), (110928, 110930),
  (110948, 110951), (110960, 111355), (113664, 113770), (113776, 113788), (113792, 113800), (113808, 113817),
  (113821, 113822), (118528, 118573), (118576, 118598), (119141, 119145), (119149, 119154), (119163, 119170),
  (119173, 119179), (119210, 119213), (119362, 119364), (119808, 119892), (119894, 119964), (119966, 119967),
  (119970, 119970), (119973, 119974), (119977, 119980), (119982, 119993), (119995, 119995), (119997, 120003),
  (120005, 120069), (120071, 120074), (120077, 120084), (120086, 120092), (120094, 120121), (120123, 120126),
  (120128, 120132), (120134, 120134), (120138, 120144), (120146, 120485), (120488, 120512), (120514, 120538),
  (120540, 120570), (120572, 120596), (120598, 120628), (120630, 120654), (120656, 120686), (120688, 120712),
  (120714, 120744), (120746, 120770), (120772, 120779), (120782, 120831), (121344, 121398), (121403, 121452),
  (121461, 121461), (121476, 121476), (121499, 121503), (121505, 121519), (122624, 122654), (122880, 122886),
  (122888, 122904), (122907, 122913), (122915, 122916), (122918, 122922), (123136, 123180), (123184, 123197),
  (123200, 123209), (123214, 123214), (123536, 123566), (123584, 123641), (124896, 124902), (124904, 124907),
  (124909, 124910), (124912, 124926), (124928, 125124), (125136, 125142), (125184, 125259), (125264, 125273),
  (126464, 126467), (126469, 126495), (126497, 126498), (126500, 126500), (126503, 126503), (126505, 126514),
  (126516, 126519), (126521, 126521), (126523, 126523), (126530, 126530), (126535, 126535), (126537, 126537),
  (126539, 126539), (126541, 126543), (126545, 126546), (126548, 126548), (126551, 126551), (126553, 126553),
  (126555, 126555), (126557, 126557), (126559, 126559), (126561, 126562), (126564, 126564), (126567, 126570),
  (126572, 126578), (126580, 126583), (126585, 126588), (126590, 126590), (126592, 126601), (126603, 126619),
  (126625, 126627), (126629, 126633), (126635, 126651), (130032, 130041), (131072, 173791), (173824, 177976),
  (177984, 178205), (178208, 183969), (183984, 191456), (194560, 195101), (196608, 201546), (917760, 917999)]

/-- The word-character class of the regex `\w`: ASCII and Unicode
letters, digits, underscore, marks, and the other word code points of
`wordRanges`. -/
def isWordChar (c : Char) : Bool :=
  wordRanges.any (fun r => r.1 ≤ c.toNat && c.toNat ≤ r.2)

/-- Scanner for `find_iter` of `\w+`: `acc` holds the reversed current
partial word. -/
def wordsAux : List Char → List Char → List (List Char)
  | [], acc => if acc.isEmpty then [] else [acc.reverse]
  | c :: cs, acc =>
      if isWordChar c then wordsAux cs (c :: acc)
      else if acc.isEmpty then wordsAux cs []
      else acc.reverse :: wordsAux cs []

/-- `Regex::new(r"\w+") ... find_iter(line)`: the maximal runs of word
characters of `l`, in left-to-right order. -/
def wordsOf (l : List Char) : List (List Char) := wordsAux l []

/-- The tokens one line contributes under a mode: its characters
(rendered as one-character strings), its `\w+` words, or the line
itself. -/
def lineTokens (option : CountOption) (line : String) : List String :=
  match option with
  | CountOption.Char => line.data.map (fun c => String.mk [c])
  | CountOption.Word => (wordsOf line.data).map (fun w => String.mk w)
  | CountOption.Line => [line]

/-- The body of the `for line in input.lines()` loop of `fn count`:
fold one line into the frequency map according to the mode. -/
def lineStep (option : CountOption) (freqs : Freqs) (line : String) : Freqs :=
  match option with
  | CountOption.Char =>
      line.data.foldl (fun fs c => incr fs (String.mk [c])) freqs
  | CountOption.Word =>
      (wordsOf line.data).foldl (fun fs w => incr fs (String.mk w)) freqs
  | CountOption.Line => incr freqs line

/-- `fn count` of `lib.rs`, over the already-decoded sequence of lines
(terminators stripped): start from the empty map and fold every line. -/
def count (lines : List String) (option : CountOption) : Freqs :=
  lines.foldl (lineStep option) []

/-- All tokens of the input, in the order `fn count` processes them. -/
def tokens (lines : List String) (option : CountOption) : List String :=
  lines.flatMap (lineTokens option)

/-- Sum of all counts of a frequency map. -/
def totalCount (m : Freqs) : Nat := (m.map Prod.snd).sum

/-- Key list of a frequency map. -/
def keysF (m : Freqs) : List String := m.map Prod.fst

example : count ["aa bb cc bb"] CountOption.Word =
    [("aa", 1), ("bb", 2), ("cc", 1)] := by decide

example : count ["x", "x"] CountOption.Line = [("x", 2)] := by decide

example : count ["aaccddd"] CountOption.Char =
    [("a", 2), ("c", 2), ("d", 3)] := by decide

/-- A UTF-8 continuation byte (`0x80..0xBF`). -/
def isCont (b : Nat) : Bool := 0x80 ≤ b && b < 0xC0

/-- UTF-8 decoding of a byte sequence, as performed by
`String::from_utf8` inside `BufRead::lines()`: rejects stray
continuation bytes, overlong encodings, surrogates, code points above
`0x10FFFF`, and truncated multi-byte sequences. `none` models the
`Err` that `line.unwrap()` turns into a panic. -/
def utf8Decode : List Nat → Option (List Char)
  | [] => some []
  | b :: rest =>
    if b < 0x80 then
      (utf8Decode rest).map (fun cs => Char.ofNat b :: cs)
    else if b < 0xC2 then
      none
    else if b < 0xE0 then
      match rest with
      | b1 :: rest' =>
        if isCont b1 then
          (utf8Decode rest').map
            (fun cs => Char.ofNat ((b - 0xC0) * 0x40 + (b1 - 0x80)) :: cs)
        else none
      | _ => none
    else if b < 0xF0 then
      match rest with
      | b1 :: b2 :: rest' =>
        if isCont b1 && isCont b2 then
          let cp := (b - 0xE0) * 0x1000 + (b1 - 0x80) * 0x40 + (b2 - 0x80)
          if cp < 0x800 || (0xD800 ≤ cp && cp < 0xE000) then none
          else (utf8Decode rest').map (fun cs => Char.ofNat cp :: cs)
        else none
      | _ => none
    else if b < 0xF5 then
      match rest with
      | b1 :: b2 :: b3 :: rest' =>
        if isCont b1 && isCont b2 && isCont b3 then
          let cp := (b - 0xF0) * 0x40000 + (b1 - 0x80) * 0x1000 +
            (b2 - 0x80) * 0x40 + (b3 - 0x80)
          if cp < 0x10000 || 0x10FFFF < cp then none
          else (utf8Decode rest').map (fun cs => Char.ofNat cp :: cs)
        else none
      | _ => none
    else none

/-- Strip one trailing CR byte (`0x0D`), as `lines()` does on a
newline-terminated line. -/
def stripCR (l : List Nat) : List Nat :=
  if l.getLast? = some 0x0D then l.dropLast else l

/-- `BufRead::lines()` at the byte level: split the stream on `0x0A`;
a trailing empty segment after a final newline is not a line; every
newline-terminated segment also has a trailing CR stripped. -/
def splitLines (bs : List Nat) : List (List Nat) :=
  let chunks := bs.splitOn 0x0A
  if bs.getLast? = some 0x0A || bs.isEmpty then
    chunks.dropLast.map stripCR
  else
    chunks.dropLast.map stripCR ++ chunks.drop (chunks.length - 1)

/-- Decode every line of the byte stream; `none` as soon as one line is
not valid UTF-8. -/
def decodeLines (bs : List Nat) : Option (List String) :=
  (splitLines bs).mapM (fun l => (utf8Decode l).map String.mk)

/-- `fn count` applied to a raw byte stream: decode the lines, then
count; a decoding failure is the panic of `line.unwrap()`, so no map is
returned. -/
def countBytes (bs : List Nat) (option : CountOption) : Option Freqs :=
  match decodeLines bs with
  | none => none
  | some lines => some (count lines option)

/-- The panic message of the `_` arm of the mode `match` in `main.rs`. -/
def invalidOptionMsg : String :=
  "invalid option: select from \x7bchar, word, line\x7d"

/-- The mode selector of `main.rs`: `match count_option.as_str()`,
mapping exactly `"char"`, `"word"`, `"line"` to the enumeration and
panicking on anything else. -/
def parseOption (s : String) : Except String CountOption :=
  if s = "char" then Except.ok CountOption.Char
  else if s = "word" then Except.ok CountOption.Word
  else if s = "line" then Except.ok CountOption.Line
  else Except.error invalidOptionMsg

example : decodeLines [0x61, 0xF0, 0x90, 0x80] = none := by decide
example : countBytes [0x61, 0xF0, 0x90, 0x80] CountOption.Word = none := by
  decide
example : decodeLines [0x61, 0x0A, 0x62] = some ["a", "b"] := by decide
example : decodeLines [0x61, 0x0D, 0x0A, 0x62] = some ["a", "b"] := by decide
example : decodeLines [0xE3, 0x81, 0x82] = some ["あ"] := by decide
example : parseOption "word" = Except.ok CountOption.Word := rfl

/-! ### Lemmas about `incr` -/

theorem lookupF_incr_self (m : Freqs) (k : String) :
    lookupF (incr m k) k = some ((lookupF m k).getD 0 + 1) := by
  induction m with
  | nil => simp [incr, lookupF]
  | cons kv rest ih =>
    obtain ⟨k', v⟩ := kv
    by_cases h : k' = k <;> simp [incr, lookupF, h, ih]

theorem lookupF_incr_other (m : Freqs) (k k' : String) (h : k' ≠ k) :
    lookupF (incr m k) k' = lookupF m k' := by
  induction m with
  | nil => simp [incr, lookupF, Ne.symm h]
  | cons kv rest ih =>
    obtain ⟨k'', v⟩ := kv
    by_cases h2 : k'' = k
    · subst h2
      simp [incr, lookupF, Ne.symm h]
    · simp [incr, lookupF, h2, ih]

theorem keysF_nil : keysF [] = [] := rfl

theorem keysF_cons (k : String) (v : Nat) (m : Freqs) :
    keysF ((k, v) :: m) = k :: keysF m := rfl

theorem keysF_incr (m : Freqs) (k : String) :
    keysF (incr m k) = if k ∈ keysF m then keysF m else keysF m ++ [k] := by
  induction m with
  | nil => simp [incr, keysF_cons, keysF_nil]
  | cons kv rest ih =>
    obtain ⟨k', v⟩ := kv
    by_cases h : k' = k
    · subst h
      simp [incr, keysF_cons]
    · have hne : ¬k = k' := fun he => h he.symm
      by_cases h2 : k ∈ keysF rest <;>
        simp [incr, keysF_cons, h, h2, ih, hne]

theorem mem_keysF_incr (m : Freqs) (t k : String) :
    k ∈ keysF (incr m t) ↔ k ∈ keysF m ∨ k = t := by
  rw [keysF_incr]
  by_cases h : t ∈ keysF m
  · simp only [h, if_true]
    exact ⟨Or.inl, fun hk => hk.elim id (fun he => he ▸ h)⟩
  · simp [h]

theorem totalCount_incr (m : Freqs) (k : String) :
    totalCount (incr m k) = totalCount m + 1 := by
  induction m with
  | nil => simp [incr, totalCount]
  | cons kv rest ih =>
    obtain ⟨k', v⟩ := kv
    by_cases h : k' = k <;> simp [incr, totalCount, h] <;>
      simp [totalCount] at ih <;> omega

theorem pos_incr (m : Freqs) (k : String) (h : ∀ p ∈ m, 1 ≤ p.2) :
    ∀ p ∈ incr m k, 1 ≤ p.2 := by
  induction m with
  | nil =>
    intro p hp
    simp [incr] at hp
    subst hp
    exact le_refl 1
  | cons kv rest ih =>
    obtain ⟨k', v⟩ := kv
    intro p hp
    by_cases h2 : k' = k
    · subst h2
      simp only [incr, if_pos rfl] at hp
      rcases List.mem_cons.mp hp with rfl | hp
      · simp only
        omega
      · exact h p (List.mem_cons_of_mem _ hp)
    · simp only [incr, if_neg h2] at hp
      rcases List.mem_cons.mp hp with rfl | hp
      · exact h (k', v) (List.mem_cons_self ..)
      · exact ih (fun q hq => h q (List.mem_cons_of_mem _ hq)) p hp

/-! ### Lemmas about folding token sequences into the map -/

theorem foldl_incr_totalCount (ts : List String) : ∀ m : Freqs,
    totalCount (List.foldl incr m ts) = totalCount m + ts.length := by
  induction ts with
  | nil => intro m; simp
  | cons t ts ih =>
    intro m
    simp [ih, totalCount_incr]
    omega

theorem mem_keysF_foldl (ts : List String) : ∀ (m : Freqs) (k : String),
    k ∈ keysF (List.foldl incr m ts) ↔ k ∈ keysF m ∨ k ∈ ts := by
  induction ts with
  | nil => simp
  | cons t ts ih =>
    intro m k
    rw [List.foldl_cons, ih, mem_keysF_incr]
    simp [or_assoc, or_comm, or_left_comm]

theorem nodup_keysF_foldl (ts : List String) : ∀ m : Freqs,
    (keysF m).Nodup → (keysF (List.foldl incr m ts)).Nodup := by
  induction ts with
  | nil => intro m h; simpa
  | cons t ts ih =>
    intro m h
    rw [List.foldl_cons]
    apply ih
    rw [keysF_incr]
    by_cases h2 : t ∈ keysF m
    · simpa [h2]
    · simp only [h2, if_false]
      exact List.Nodup.append h (List.nodup_singleton t)
        (by simp [List.disjoint_singleton, h2])

theorem pos_foldl (ts : List String) : ∀ m : Freqs, (∀ p ∈ m, 1 ≤ p.2) →
    ∀ p ∈ List.foldl incr m ts, 1 ≤ p.2 := by
  induction ts with
  | nil =>
    intro m h p hp
    rw [List.foldl_nil] at hp
    exact h p hp
  | cons t ts ih =>
    intro m h
    exact ih _ (pos_incr m t h)

theorem lineStep_eq_foldl (o : CountOption) (m : Freqs) (l : String) :
    lineStep o m l = List.foldl incr m (lineTokens o l) := by
  cases o <;> simp [lineStep, lineTokens, List.foldl_map]

theorem count_eq_foldl_tokens (lines : List String) (o : CountOption) :
    count lines o = List.foldl incr [] (tokens lines o) := by
  suffices h : ∀ (ls : List String) (m : Freqs),
      List.foldl (lineStep o) m ls =
        List.foldl incr m (ls.flatMap (lineTokens o)) by
    exact h lines []
  intro ls
  induction ls with
  | nil => intro m; simp
  | cons l ls ih =>
    intro m
    simp only [List.foldl_cons, List.flatMap_cons, List.foldl_append, ih,
      lineStep_eq_foldl]

/-! ### The spec-side description of `\w+` matching -/

/-- Modelled from the spec: `WordRuns l ws` holds when `ws` is the
left-to-right list of maximal runs of word characters of `l`.
A non-word character is skipped and produces no token; a token is a
non-empty run of word characters that cannot be extended to the right
(the remainder starts with a non-word character or is empty). -/
inductive WordRuns : List Char → List (List Char) → Prop where
  /-- an empty line has no matches -/
  | nil : WordRuns [] []
  /-- a non-word character produces no token -/
  | skip {c : Char} {l : List Char} {ws : List (List Char)} :
      isWordChar c = false → WordRuns l ws → WordRuns (c :: l) ws
  /-- a maximal non-empty run of word characters is the next token -/
  | word {w l : List Char} {ws : List (List Char)} :
      w ≠ [] → (∀ c ∈ w, isWordChar c = true) →
      (∀ c, l.head? = some c → isWordChar c = false) →
      WordRuns l ws → WordRuns (w ++ l) (w :: ws)

theorem wordsAux_runs (l : List Char) : ∀ acc : List Char,
    (∀ c ∈ acc, isWordChar c = true) →
    WordRuns (acc.reverse ++ l) (wordsAux l acc) := by
  induction l with
  | nil =>
    intro acc hacc
    rw [wordsAux]
    by_cases h : acc.isEmpty
    · rw [if_pos h]
      rw [List.isEmpty_iff] at h
      subst h
      exact WordRuns.nil
    · rw [if_neg h]
      rw [List.isEmpty_iff] at h
      exact WordRuns.word (by simpa using h)
        (fun c hc => hacc c (List.mem_reverse.mp hc))
        (fun c hc => by simp at hc) WordRuns.nil
  | cons c cs ih =>
    intro acc hacc
    rw [wordsAux]
    by_cases hw : isWordChar c
    · rw [if_pos hw]
      have := ih (c :: acc) (by
        intro c' hc'
        rcases List.mem_cons.mp hc' with rfl | hc'
        · exact hw
        · exact hacc c' hc')
      simpa [List.append_assoc] using this
    · have hw' : isWordChar c = false := by simpa using hw
      rw [if_neg hw]
      by_cases he : acc.isEmpty
      · rw [if_pos he]
        rw [List.isEmpty_iff] at he
        subst he
        exact WordRuns.skip hw' (by simpa using ih [] (by simp))
      · rw [if_neg he]
        rw [List.isEmpty_iff] at he
        exact WordRuns.word (by simpa using he)
          (fun c' hc' => hacc c' (List.mem_reverse.mp hc'))
          (fun c' hc' => by simp at hc'; rw [← hc']; exact hw')
          (WordRuns.skip hw' (by simpa using ih [] (by simp)))

theorem wordsOf_runs (l : List Char) : WordRuns l (wordsOf l) := by
  simpa [wordsOf] using wordsAux_runs l [] (by simp)

/-! ### Claim theorems -/

/-- C1: In `Word` mode the counter tokenizes each line into the maximal
runs of word characters (the `\w+` matches, ASCII and Unicode letters,
digits, underscore), increments the count keyed by each matched
substring in left-to-right order of occurrence, and non-matching
characters produce no token; for the single-line input "aa bb cc bb"
the result is exactly the map aa ↦ 1, bb ↦ 2, cc ↦ 1, and non-ASCII
word characters stay inside one run: "héllo" and "日本語" are each a
single token. -/
theorem c1_word_mode_tokenization :
    (∀ l : List Char, WordRuns l (wordsOf l)) ∧
    (∀ lines : List String, count lines CountOption.Word =
      List.foldl incr [] (tokens lines CountOption.Word)) ∧
    count ["aa bb cc bb"] CountOption.Word =
      [("aa", 1), ("bb", 2), ("cc", 1)] ∧
    count ["héllo"] CountOption.Word = [("héllo", 1)] ∧
    count ["日本語"] CountOption.Word = [("日本語", 1)] :=
  ⟨wordsOf_runs, fun lines => count_eq_foldl_tokens lines CountOption.Word,
    by decide, by decide, by decide⟩

/-- C2: In `Char` mode the sum of all counts equals the total number of
Unicode scalar values across the input lines (line terminators already
stripped), and every scalar is counted under the key consisting of that
single character rendered as a one-character string. -/
theorem c2_char_mode_total :
    ∀ lines : List String,
      totalCount (count lines CountOption.Char) =
        (lines.map (fun s => s.data.length)).sum ∧
      count lines CountOption.Char =
        List.foldl incr []
          (lines.flatMap (fun l => l.data.map (fun c => String.mk [c]))) := by
  intro lines
  constructor
  · rw [count_eq_foldl_tokens, foldl_incr_totalCount, tokens,
      List.length_flatMap]
    simp only [Function.comp_def, lineTokens, List.length_map]
    simp [totalCount]
  · rw [count_eq_foldl_tokens]
    rfl

/-- C3: In `Line` mode each stripped line is one token whose count is
incremented by 1: the sum of all counts equals the number of lines, the
number of map entries equals the number of distinct lines, and the
two-line input "x", "x" yields exactly the map x ↦ 2. -/
theorem c3_line_mode :
    ∀ lines : List String,
      totalCount (count lines CountOption.Line) = lines.length ∧
      (count lines CountOption.Line).length = lines.dedup.length ∧
      count ["x", "x"] CountOption.Line = [("x", 2)] := by
  intro lines
  have htok : tokens lines CountOption.Line = lines := by
    have h1 : lineTokens CountOption.Line = fun l => [l] := rfl
    rw [tokens, h1, List.flatMap_singleton']
  refine ⟨?_, ?_, by decide⟩
  · rw [count_eq_foldl_tokens, foldl_incr_totalCount, htok]
    simp [totalCount]
  · have hkeys := count_eq_foldl_tokens lines CountOption.Line
    have hnodup : (keysF (count lines CountOption.Line)).Nodup := by
      rw [hkeys]
      exact nodup_keysF_foldl _ [] (by simp [keysF_nil])
    have hmem : ∀ k, k ∈ keysF (count lines CountOption.Line) ↔ k ∈ lines := by
      intro k
      rw [hkeys, mem_keysF_foldl, htok]
      simp [keysF_nil]
    have hperm : List.Perm (keysF (count lines CountOption.Line))
        lines.dedup := by
      rw [List.perm_ext_iff_of_nodup hnodup (List.nodup_dedup lines)]
      intro a
      rw [hmem, List.mem_dedup]
    calc (count lines CountOption.Line).length
        = (keysF (count lines CountOption.Line)).length := by
          rw [keysF, List.length_map]
      _ = lines.dedup.length := hperm.length_eq

/-- C4: For every mode, a byte stream that is not valid UTF-8 makes the
count operation fail fatally (no frequency map is returned), and only
such streams do; in particular the incomplete multi-byte sequence
`[0x61, 0xF0, 0x90, 0x80]` in `Word` mode fails fatally. -/
theorem c4_invalid_utf8_aborts :
    (∀ (bs : List Nat) (o : CountOption),
      countBytes bs o = none ↔ decodeLines bs = none) ∧
    countBytes [0x61, 0xF0, 0x90, 0x80] CountOption.Word = none := by
  constructor
  · intro bs o
    unfold countBytes
    cases decodeLines bs <;> simp
  · decide

/-- C5: For every mode, `count` applied to an empty sequence of lines
returns the empty frequency map. -/
theorem c5_empty_input : ∀ o : CountOption, count [] o = [] :=
  fun _ => rfl

/-- C6: The frequency map starts empty and is populated monotonically:
incrementing a token raises exactly that token's count by 1 (inserting
it at 1 when absent) and leaves every other key unchanged, and the
final map has exactly one entry per distinct token encountered in the
input under the chosen mode. -/
theorem c6_map_invariants :
    (∀ (m : Freqs) (k : String),
      lookupF (incr m k) k = some ((lookupF m k).getD 0 + 1)) ∧
    (∀ (m : Freqs) (k k' : String), k' ≠ k →
      lookupF (incr m k) k' = lookupF m k') ∧
    (∀ (lines : List String) (o : CountOption),
      (keysF (count lines o)).Nodup ∧
      ∀ k, k ∈ keysF (count lines o) ↔ k ∈ tokens lines o) := by
  refine ⟨lookupF_incr_self, lookupF_incr_other, ?_⟩
  intro lines o
  rw [count_eq_foldl_tokens]
  exact ⟨nodup_keysF_foldl _ [] (by simp [keysF_nil]),
    fun k => by rw [mem_keysF_foldl]; simp [keysF_nil]⟩

theorem c6_map_invariants_witness :
    lookupF (incr [("a", 1)] "a") "b" = lookupF [("a", 1)] "b" :=
  c6_map_invariants.2.1 [("a", 1)] "a" "b" (by decide)

/-- C7: `count` is deterministic: two invocations on the same line
sequence with the same mode yield identical maps (same key list, same
count for every key). -/
theorem c7_deterministic :
    ∀ (lines : List String) (o : CountOption) (k : String) (m1 m2 : Freqs),
      m1 = count lines o → m2 = count lines o →
      lookupF m1 k = lookupF m2 k ∧ keysF m1 = keysF m2 := by
  intro lines o k m1 m2 h1 h2
  subst h1
  subst h2
  exact ⟨rfl, rfl⟩

theorem c7_deterministic_witness :
    lookupF (count ["aa bb"] CountOption.Word) "aa" =
      lookupF (count ["aa bb"] CountOption.Word) "aa" ∧
    keysF (count ["aa bb"] CountOption.Word) =
      keysF (count ["aa bb"] CountOption.Word) :=
  c7_deterministic ["aa bb"] CountOption.Word "aa" _ _ rfl rfl

/-- C8: The mode selector maps exactly "char", "word", "line"
(case-sensitive) to the three modes, and every other string fails
fatally with the message enumerating the valid options, before any
counting occurs. -/
theorem c8_mode_selector :
    parseOption "char" = Except.ok CountOption.Char ∧
    parseOption "word" = Except.ok CountOption.Word ∧
    parseOption "line" = Except.ok CountOption.Line ∧
    ∀ s : String, s ≠ "char" → s ≠ "word" → s ≠ "line" →
      parseOption s = Except.error invalidOptionMsg := by
  refine ⟨rfl, rfl, rfl, ?_⟩
  intro s h1 h2 h3
  simp [parseOption, h1, h2, h3]

theorem c8_mode_selector_witness :
    parseOption "Line" = Except.error invalidOptionMsg :=
  c8_mode_selector.2.2.2 "Line" (by decide) (by decide) (by decide)

/-- C9: The default value of `CountOption` is `Word`. -/
theorem c9_default_is_word : CountOption.default = CountOption.Word := rfl

/-- C10: Every value stored in a returned frequency map is at least 1:
a key is inserted only when its first occurrence is counted, so no
zero-count entry ever appears. -/
theorem c10_counts_positive :
    ∀ (lines : List String) (o : CountOption) (k : String) (v : Nat),
      (k, v) ∈ count lines o → 1 ≤ v := by
  intro lines o k v hm
  rw [count_eq_foldl_tokens] at hm
  exact pos_foldl _ [] (by simp) (k, v) hm

theorem c10_counts_positive_witness :
    ("aa", 1) ∈ count ["aa"] CountOption.Word ∧ 1 ≤ 1 :=
  ⟨by decide, c10_counts_positive ["aa"] CountOption.Word "aa" 1 (by decide)⟩
